import Mathlib

/-
  Shallow embedding of the inventory / purchasing / sales / payments /
  licence core of the der_backend repository, together with proofs that
  settle the claims of the specification against it.

  Conventions of the embedding:
  * database tables are lists of rows, primary keys are `Nat`;
  * integer columns are `Int` (Django IntegerField) or `Nat`
    (PositiveIntegerField); monetary DecimalFields are `Int` in minor
    units, so that the amount-equality tests of the source are exact;
  * a Django queryset `filter(...).first()` is `List.find?`;
  * a `transaction.atomic` block that raises is modelled by returning the
    unchanged input state (rollback);
  * request handlers return a structured response value instead of an
    HTTP status line, with one constructor per `return Response(...)`
    site of the source.
-/

namespace DerBackend

/- ===== Inventory data model (src/inventory/models.py) ===== -/

/-- StockMovement.MOVEMENT_TYPES choices. -/
inductive MovementType
  | SALE
  | RETURN
  | RESTOCK
  | ADJUST
  | TRANSFER
  deriving DecidableEq, Repr

/-- One row of the StockMovement audit table. `reference_id` is kept as a
numeric reference (sale id / reason id) instead of the source's string. -/
structure StockMovement where
  product : Nat
  movement_type : MovementType
  quantity_change : Int
  unit_cost : Int
  reference_id : Nat
  deriving DecidableEq, Repr

/-- One row of the Inventory table: the mutable per-SKU counter.
Fields not read by any claim (safety_stock_level, location,
last_restock_date) are omitted. -/
structure InventoryRow where
  product : Nat
  quantity_in_stock : Int
  deriving DecidableEq, Repr

/-- Queryset lookup Inventory.objects.get(product=p) / the `inventory`
reverse one-to-one accessor. -/
def lookupInv (inv : List InventoryRow) (p : Nat) : Option InventoryRow :=
  inv.find? (fun r => r.product == p)

/-- Current quantity_in_stock of SKU `p` (0 when no row exists). -/
def stockOf (inv : List InventoryRow) (p : Nat) : Int :=
  ((lookupInv inv p).map (fun r => r.quantity_in_stock)).getD 0

/-- Add `d` to the quantity_in_stock of the row(s) of SKU `p`
(`inventory_item.quantity_in_stock += d; inventory_item.save()`). -/
def addQty (inv : List InventoryRow) (p : Nat) (d : Int) : List InventoryRow :=
  inv.map (fun r =>
    if r.product == p then { r with quantity_in_stock := r.quantity_in_stock + d } else r)

/-- Sum of StockMovement.quantity_change over the movements of SKU `p`. -/
def movementSum (movs : List StockMovement) (p : Nat) : Int :=
  ((movs.filter (fun m => m.product == p)).map (fun m => m.quantity_change)).sum

/- ===== Purchasing data model (src/purchasing/models.py) ===== -/

/-- One row of the PurchaseOrderItem table (fields used by receptions). -/
structure PurchaseOrderItemRow where
  id : Nat
  product : Nat
  quantity_ordered : Nat
  unit_cost : Int
  deriving DecidableEq, Repr

/-- One persisted row of the StockReception table. -/
structure StockReceptionRow where
  pk : Nat
  purchase_order_item : Nat
  quantity_received : Nat
  decayed_products : Nat
  deriving DecidableEq, Repr

/-- A StockReception instance being validated: `pk = none` for a fresh
record (create), `pk = some k` when updating row `k`. -/
structure ReceptionSelf where
  pk : Option Nat
  purchase_order_item : Nat
  quantity_received : Nat
  decayed_products : Nat
  deriving DecidableEq, Repr

/-- Distinct ValidationError exits of StockReception.clean, in source
order. -/
inductive CleanError
  | decayed_exceeds_received
  | negative_for_sale
  | over_ordered (excess : Nat)
  deriving DecidableEq, Repr

/-- StockReception.clean: `prior_accounted`, the Sum aggregate of
quantity_received + decayed_products over the receptions of the same
purchase_order_item, excluding the record itself when it has a pk. -/
def priorAccounted (table : List StockReceptionRow) (self : ReceptionSelf) : Nat :=
  ((table.filter (fun t =>
      t.purchase_order_item == self.purchase_order_item &&
        (match self.pk with
         | some k => t.pk != k
         | none => true))).map
    (fun t => t.quantity_received + t.decayed_products)).sum

/-- StockReception.clean (src/purchasing/models.py lines 143-192).
Rule 0 (fields present) is compiled away: the embedding's quantities are
total `Nat` values. The remaining checks appear in source order. -/
def cleanReception (table : List StockReceptionRow) (ordered : Nat)
    (self : ReceptionSelf) : Except CleanError Unit :=
  if self.decayed_products > self.quantity_received then
    .error .decayed_exceeds_received
  else if (self.quantity_received : Int) - (self.decayed_products : Int) < 0 then
    .error .negative_for_sale
  else
    let grand := priorAccounted table self + self.quantity_received + self.decayed_products
    if grand > ordered then .error (.over_ordered (grand - ordered))
    else .ok ()

/- ===== Sales data model (src/sales/sales_models.py, sales_serializers.py) ===== -/

/-- One validated line of a SaleTransaction request
(SaleItemWriteSerializer). -/
structure SaleLine where
  product : Nat
  quantity : Nat
  unit_price : Int
  deriving DecidableEq, Repr

/-- Sale header row created by SaleTransactionSerializer.create. -/
structure SaleRow where
  id : Nat
  total_amount : Int
  deriving DecidableEq, Repr

/-- SaleItem row. -/
structure SaleItemRow where
  sale : Nat
  product_specification : Nat
  quantity : Nat
  unit_price : Int
  deriving DecidableEq, Repr

/-- Order header row created by SalesOrderSerializer.create (only the
fields the stock claims read). -/
structure OrderHeaderRow where
  id : Nat
  order_total : Int
  deriving DecidableEq, Repr

/-- OrderItemPhysical line submitted in `new_physical_items`. -/
structure OrderPhysLine where
  product : Nat
  quantity : Nat
  unit_price : Int
  deriving DecidableEq, Repr

/-- Failure exits of SaleTransactionSerializer (field and serializer
validation). -/
inductive SaleError
  | bad_line_quantity
  | empty_items
  | missing_inventory
  | insufficient_stock (sku : Nat) (requested : Nat) (available_stock : Int)
  deriving DecidableEq, Repr

/-- Failure exits of SalesOrderSerializer.create for physical lines. -/
inductive OrderError
  | missing_inventory
  | insufficient_stock
  deriving DecidableEq, Repr

/-- Failure exits of StockAdjustmentSerializer validation. -/
inductive AdjustError
  | sku_not_found
  | zero_adjustment
  | insufficient_stock (current : Int) (requested_removal : Int)
  deriving DecidableEq, Repr

/-- The shared persistent state of the stock-touching operations. -/
structure Store where
  inv : List InventoryRow
  movements : List StockMovement
  sales : List SaleRow
  saleItems : List SaleItemRow
  orders : List OrderHeaderRow
  poItems : List PurchaseOrderItemRow
  receptions : List StockReceptionRow
  nextId : Nat
  deriving DecidableEq, Repr

/- ===== Sale Transaction (SaleTransactionSerializer, src/sales/sales_serializers.py) ===== -/

/-- The per-line loop of SaleTransactionSerializer.validate: existence of
the inventory link, then the stock-availability check, accumulating
total_amount. -/
def saleValidateGo (inv : List InventoryRow) : List SaleLine → Int → Except SaleError Int
  | [], acc => .ok acc
  | l :: ls, acc =>
    match lookupInv inv l.product with
    | none => .error .missing_inventory
    | some row =>
      if (l.quantity : Int) > row.quantity_in_stock then
        .error (.insufficient_stock l.product l.quantity row.quantity_in_stock)
      else saleValidateGo inv ls (acc + l.quantity * l.unit_price)

/-- SaleTransactionSerializer validation: the field-level
`quantity = IntegerField(min_value=1)` check, the empty-items check, then
the per-line stock checks. Returns total_amount. -/
def saleValidate (inv : List InventoryRow) (lines : List SaleLine) : Except SaleError Int :=
  if lines.any (fun l => l.quantity < 1) then .error .bad_line_quantity
  else if lines.isEmpty then .error .empty_items
  else saleValidateGo inv lines 0

/-- Python dict item assignment `d[k] = v` on an association list. -/
def upsert (k v : Nat) : List (Nat × Nat) → List (Nat × Nat)
  | [] => [(k, v)]
  | (k', v') :: rest => if k' == k then (k', v) :: rest else (k', v') :: upsert k v rest

/-- The `_inventory_updates` dict built by validate: keyed by product pk,
insertion-ordered, the last line for a product overwriting earlier ones. -/
def inventoryUpdates (lines : List SaleLine) : List (Nat × Nat) :=
  lines.foldl (fun acc l => upsert l.product l.quantity acc) []

/-- The unit_price of the first submitted line for a product
(`next(item for item in items_data if ... == product_id)`). -/
def firstPriceFor (lines : List SaleLine) (p : Nat) : Int :=
  ((lines.find? (fun l => l.product == p)).map (fun l => l.unit_price)).getD 0

/-- Body of the create loop for one `_inventory_updates` entry: SaleItem
row, SALE StockMovement of -quantity, F-expression decrement of
quantity_in_stock. -/
def applyLineSale (lines : List SaleLine) (sid : Nat) (st : Store) (pq : Nat × Nat) : Store :=
  { st with
    saleItems := st.saleItems ++
      [{ sale := sid, product_specification := pq.1, quantity := pq.2,
         unit_price := firstPriceFor lines pq.1 }]
    movements := st.movements ++
      [{ product := pq.1, movement_type := .SALE, quantity_change := -(pq.2 : Int),
         unit_cost := 0, reference_id := sid }]
    inv := addQty st.inv pq.1 (-(pq.2 : Int)) }

/-- SaleTransactionSerializer.create: Sale header, then per dict entry a
SaleItem, a SALE movement and the inventory decrement. -/
def saleCreate (st : Store) (lines : List SaleLine) (total : Int) : Store × Nat :=
  let sid := st.nextId
  let st1 := { st with sales := st.sales ++ [{ id := sid, total_amount := total }],
                       nextId := sid + 1 }
  ((inventoryUpdates lines).foldl (applyLineSale lines sid) st1, sid)

/-- The POS endpoint: validate, then the atomic create; a validation
failure leaves the store untouched. -/
def runSale (st : Store) (lines : List SaleLine) : Store × Except SaleError Nat :=
  match saleValidate st.inv lines with
  | .error e => (st, .error e)
  | .ok total =>
    let (st', sid) := saleCreate st lines total
    (st', .ok sid)

/- ===== Manual stock adjustment (StockAdjustmentSerializer, src/inventory/serializers.py) ===== -/

/-- StockAdjustmentSerializer: validate_product_sku,
validate_adjustment_quantity, then the atomic save creating an ADJUST
movement and applying the increment. -/
def stockAdjustment (st : Store) (sku : Nat) (dq : Int) (cost : Int) :
    Except AdjustError Store :=
  match lookupInv st.inv sku with
  | none => .error .sku_not_found
  | some row =>
    if dq = 0 then .error .zero_adjustment
    else if dq < 0 ∧ -dq > row.quantity_in_stock then
      .error (.insufficient_stock row.quantity_in_stock (-dq))
    else
      .ok { st with
        movements := st.movements ++
          [{ product := sku, movement_type := .ADJUST, quantity_change := dq,
             unit_cost := cost, reference_id := 0 }]
        inv := addQty st.inv sku dq }

/- ===== Order creation, physical lines (SalesOrderSerializer.create, src/sales/serializers.py) ===== -/

/-- The physical-items loop of SalesOrderSerializer.create: per line an
inventory lookup, the stock check, the direct decrement of
quantity_in_stock (with no StockMovement), and the OrderItemPhysical row;
accumulates order_total. -/
def orderPhysGo (oid : Nat) : Store → List OrderPhysLine → Int → Except OrderError (Store × Int)
  | st, [], acc => .ok (st, acc)
  | st, l :: ls, acc =>
    match lookupInv st.inv l.product with
    | none => .error .missing_inventory
    | some row =>
      if row.quantity_in_stock < (l.quantity : Int) then .error .insufficient_stock
      else
        orderPhysGo oid
          { st with inv := addQty st.inv l.product (-(l.quantity : Int)) }
          ls (acc + l.quantity * l.unit_price)

/-- SalesOrderSerializer.create restricted to physical lines: the Order
header is created, each line decrements stock directly, and the final
order_total is written back; any failure rolls the transaction back. -/
def orderCreatePhys (st : Store) (lines : List OrderPhysLine) : Except OrderError Store :=
  let oid := st.nextId
  match orderPhysGo oid { st with nextId := oid + 1 } lines 0 with
  | .error e => .error e
  | .ok (st', total) =>
    .ok { st' with orders := st'.orders ++ [{ id := oid, order_total := total }] }

/- ===== Stock reception persisting (StockReception.save + StockReceptionViewSet.perform_create) ===== -/

/-- A reception request (StockReceptionSerializer payload). -/
structure ReceptionInput where
  purchase_order_item : Nat
  quantity_received : Nat
  decayed_products : Nat
  deriving DecidableEq, Repr

inductive ReceptionError
  | po_item_not_found
  | invalid (e : CleanError)
  deriving DecidableEq, Repr

/-- StockReception.save for a fresh record: full_clean (the model clean
above) and then the insert. No other table is touched: neither
StockReceptionViewSet.perform_create nor StockReception.save writes a
StockMovement or an Inventory row. -/
def recordReception (st : Store) (r : ReceptionInput) : Except ReceptionError Store :=
  match st.poItems.find? (fun it => it.id == r.purchase_order_item) with
  | none => .error .po_item_not_found
  | some item =>
    match cleanReception st.receptions item.quantity_ordered
        { pk := none, purchase_order_item := r.purchase_order_item,
          quantity_received := r.quantity_received,
          decayed_products := r.decayed_products } with
    | .error e => .error (.invalid e)
    | .ok _ =>
      .ok { st with
        receptions := st.receptions ++
          [{ pk := st.nextId, purchase_order_item := r.purchase_order_item,
             quantity_received := r.quantity_received,
             decayed_products := r.decayed_products }]
        nextId := st.nextId + 1 }

/- ===== Committed operation sequences for the ledger invariant ===== -/

/-- The operations of claim C1 that touch a SKU's stock. -/
inductive StockOp
  | sale (lines : List SaleLine)
  | adjust (sku : Nat) (dq cost : Int)
  | reception (r : ReceptionInput)
  | orderCreate (lines : List OrderPhysLine)
  deriving DecidableEq, Repr

/-- Running one operation; a failed (rolled-back) operation commits
nothing. -/
def applyStockOp (st : Store) : StockOp → Store
  | .sale lines => (runSale st lines).1
  | .adjust sku dq cost =>
    match stockAdjustment st sku dq cost with
    | .ok st' => st'
    | .error _ => st
  | .reception r =>
    match recordReception st r with
    | .ok st' => st'
    | .error _ => st
  | .orderCreate lines =>
    match orderCreatePhys st lines with
    | .ok st' => st'
    | .error _ => st

def applyStockOps (st : Store) (ops : List StockOp) : Store :=
  ops.foldl applyStockOp st

/-- Every inventory row's quantity_in_stock equals the sum of
quantity_change over the movements of its SKU. -/
def ledgerAligned (inv : List InventoryRow) (movs : List StockMovement) : Prop :=
  ∀ r ∈ inv, r.quantity_in_stock = movementSum movs r.product

/-- The ledger-consistency invariant of a store. -/
def ledgerOk (st : Store) : Prop :=
  ledgerAligned st.inv st.movements

/-- True for the operations that mutate stock only through the ledger
(sales, receptions, manual adjustments); false for direct order
creation. -/
def StockOp.ledgerMediated : StockOp → Prop
  | .orderCreate _ => False
  | _ => True

/- ===== Payments (src/payments/models.py, src/payments/views.py) ===== -/

/-- PAYMENT_STATUS_CHOICES. -/
inductive PayStatus
  | PENDING
  | WAITING_PAYMENT
  | SUCCESS
  | FAILED
  | EXPIRED
  | CANCELLED
  deriving DecidableEq, Repr

/-- Order.order_status values the webhook path touches. -/
inductive SalesOrderStatus
  | PENDING
  | PAID
  | CANCELLED
  deriving DecidableEq, Repr

/-- A Payment row; amount_due in minor units. transaction_id is only
populated by the webhook success branch. -/
structure PaymentRow where
  id : Nat
  order : Nat
  amount_due : Int
  status : PayStatus
  transaction_id : Option Nat
  deriving DecidableEq, Repr

/-- A LocalPaymentDetails row; `control_number = 0` never occurs in a
stored row (0 models a missing/falsy webhook field). -/
structure LocalDetailsRow where
  payment : Nat
  control_number : Nat
  expiry_time : Nat
  deriving DecidableEq, Repr

structure SalesOrderRow where
  id : Nat
  order_status : SalesOrderStatus
  deriving DecidableEq, Repr

/-- State read and written by PaymentWebhookView.post. `fulfillments`
logs every fulfill_order invocation (order, transaction_id), so that
"no duplicate fulfillment" is visible in the state. `now` is the clock
LocalPaymentDetails.is_expired compares against. -/
structure PayState where
  payments : List PaymentRow
  details : List LocalDetailsRow
  orders : List SalesOrderRow
  fulfillments : List (Nat × Nat)
  now : Nat
  deriving DecidableEq, Repr

/-- Response constructors: one per `return Response(...)` site of
PaymentWebhookView.post. -/
inductive WebhookResp
  | invalid_payload_400
  | not_found_404
  | expired_400
  | already_processed_200
  | mismatch_ack_200
  | paid_ack_200
  | server_error_500
  deriving DecidableEq, Repr

/-- Payment.save() after `payment.status = s`. -/
def setPaymentStatus (s : PayState) (pid : Nat) (st : PayStatus) : PayState :=
  { s with payments :=
      s.payments.map (fun p => if p.id == pid then { p with status := st } else p) }

/-- The success branch's Payment.save(update_fields=[status,
transaction_id, updated_at]). -/
def setPaymentSuccess (s : PayState) (pid tid : Nat) : PayState :=
  { s with payments :=
      s.payments.map (fun p =>
        if p.id == pid then { p with status := .SUCCESS, transaction_id := some tid }
        else p) }

/-- fulfill_order: sets the order PAID and is logged. -/
def fulfillOrder (s : PayState) (oid tid : Nat) : PayState :=
  { s with
    orders := s.orders.map (fun o =>
      if o.id == oid then { o with order_status := .PAID } else o)
    fulfillments := s.fulfillments ++ [(oid, tid)] }

/-- PaymentWebhookView.post. Payload fields model Python truthiness:
`cn = 0` / `tid = 0` / `amount = 0` are the falsy (missing) values the
`if not cn or not transaction_id or not payment_amount` guard rejects. -/
def handleWebhook (cn tid : Nat) (amount : Int) (s : PayState) : WebhookResp × PayState :=
  if cn = 0 ∨ tid = 0 ∨ amount = 0 then (.invalid_payload_400, s)
  else
    match s.details.find? (fun d => d.control_number == cn) with
    | none => (.not_found_404, s)
    | some d =>
      match s.payments.find? (fun p => p.id == d.payment) with
      | none => (.server_error_500, s)
      | some p =>
        if p.status = .SUCCESS then (.already_processed_200, s)
        else if d.expiry_time < s.now then
          (.expired_400, setPaymentStatus s p.id .EXPIRED)
        else if amount ≠ p.amount_due then (.mismatch_ack_200, s)
        else
          let s1 := setPaymentSuccess s p.id tid
          let s2 := fulfillOrder s1 p.order tid
          (.paid_ack_200, s2)

/- ===== Licence fulfillment (src/licence/views.py, InternalKeyAssignmentView.post) ===== -/

structure SoftwareLicenseRow where
  id : Nat
  product : Nat
  license_key : Nat
  is_assigned : Bool
  assigned_to_order : Option Nat
  deriving DecidableEq, Repr

structure DigitalAccessRow where
  product : Nat
  customer_user : Nat
  granted_via_order : Nat
  deriving DecidableEq, Repr

structure LicState where
  licenses : List SoftwareLicenseRow
  accesses : List DigitalAccessRow
  orders : List Nat
  deriving DecidableEq, Repr

/-- Outcomes of InternalKeyAssignmentView.post. `no_license_404` is the
response of the `except SoftwareLicense.DoesNotExist` branch; it is
unreachable, because `queryset.first()` returns None instead of raising
DoesNotExist. -/
inductive LicResp
  | order_not_found_404
  | no_license_404
  | assigned_200 (key : Nat)
  | server_error_500
  deriving DecidableEq, Repr

/-- InternalKeyAssignmentView.post. When no unassigned license exists,
`first()` yields None and `license.is_assigned = True` raises
AttributeError: an unhandled 500 and a rolled-back transaction. When a
license IS found, the handler still dies before saving anything:
`license.assigned_at = timezone.now()` raises NameError (the module
never imports timezone), so that branch too is a 500 with rollback. -/
def internalKeyAssignment (s : LicState) (order_id product_id : Nat) : LicResp × LicState :=
  if order_id ∈ s.orders then
    match s.licenses.find? (fun l => l.product == product_id && !l.is_assigned) with
    | none => (.server_error_500, s)
    | some _ => (.server_error_500, s)
  else (.order_not_found_404, s)

/- ===== Purchase order nested item update (PurchaseOrderSerializer.update, src/purchasing/serializers.py lines 223-275) ===== -/

/-- One line of the submitted `items` payload; `sid` is its optional
`id` field. -/
structure SubmittedItem where
  sid : Option Nat
  product : Nat
  quantity_ordered : Nat
  unit_cost : Int
  deriving DecidableEq, Repr

/-- PurchaseOrderItem.objects.create / assignment of all writable fields
onto row `i`. -/
def mkPOItem (i : Nat) (s : SubmittedItem) : PurchaseOrderItemRow :=
  { id := i, product := s.product, quantity_ordered := s.quantity_ordered,
    unit_cost := s.unit_cost }

/-- PurchaseOrderItemSerializer declares `id` in its read_only_fields,
so DRF strips it during validation: the item dicts
PurchaseOrderSerializer.update receives never carry an identifier and
`item_data.get('id')` is always None. -/
def validatedItems (submitted : List SubmittedItem) : List SubmittedItem :=
  submitted.map (fun s => { s with sid := none })

/-- The update-in-place branch: `item.product = ...; item.save()` on the
row(s) with id `i`. -/
def updateRowFields (items : List PurchaseOrderItemRow) (i : Nat) (s : SubmittedItem) :
    List PurchaseOrderItemRow :=
  items.map (fun it => if it.id == i then mkPOItem it.id s else it)

/-- Database errors raised inside PurchaseOrderSerializer.update:
IntegrityError from unique_together ('purchase_order', 'product') on a
write, ProtectedError from the on_delete=PROTECT relation of
StockReception.purchase_order_item on the delete step. -/
inductive POUpdateError
  | integrity_unique_product
  | protected_receptions
  deriving DecidableEq, Repr

/-- The `for item_data in items_data` loop: carried state is the live
item rows, `item_ids_to_keep`, and the autoincrement counter for fresh
primary keys. Both branches are embedded as written, including the
id-matching one that `validatedItems` can never reach. Writes hit the
database as they happen, before any deletion, so
`PurchaseOrderItem.objects.create` (or an `item.save()` that moves a row
onto another row's product) violates unique_together against the still
live rows and raises IntegrityError there and then. -/
def updateLoop : List PurchaseOrderItemRow → List Nat → Nat → List SubmittedItem →
    Except POUpdateError (List PurchaseOrderItemRow × List Nat × Nat)
  | items, keep, next, [] => .ok (items, keep, next)
  | items, keep, next, s :: rest =>
    match s.sid with
    | some i =>
      if items.any (fun it => it.id == i) then
        if items.any (fun it => it.id != i && it.product == s.product) then
          .error .integrity_unique_product
        else updateLoop (updateRowFields items i s) (keep ++ [i]) next rest
      else
        if items.any (fun it => it.product == s.product) then
          .error .integrity_unique_product
        else updateLoop (items ++ [mkPOItem next s]) (keep ++ [next]) (next + 1) rest
    | none =>
      if items.any (fun it => it.product == s.product) then
        .error .integrity_unique_product
      else updateLoop (items ++ [mkPOItem next s]) (keep ++ [next]) (next + 1) rest

/-- PurchaseOrderSerializer.update on the nested items: the loop above
followed by `instance.items.exclude(id__in=item_ids_to_keep).delete()`.
StockReception.purchase_order_item is on_delete=PROTECT, so the delete
raises ProtectedError as soon as any removed row still has receptions;
only otherwise are the excluded rows dropped. -/
def poItemsUpdate (items : List PurchaseOrderItemRow)
    (receptions : List StockReceptionRow) (next : Nat)
    (submitted : List SubmittedItem) :
    Except POUpdateError (List PurchaseOrderItemRow × Nat) :=
  match updateLoop items [] next submitted with
  | .error e => .error e
  | .ok (its, keep, n') =>
    if (its.filter (fun it => !keep.contains it.id)).any
        (fun it => receptions.any (fun r => r.purchase_order_item == it.id)) then
      .error .protected_receptions
    else .ok (its.filter (fun it => keep.contains it.id), n')

/-- The nested state of one purchase order during update: its line items
and the StockReception rows attached to them by purchase_order_item id.
The update never writes the receptions, but the delete step reads them
through the PROTECT relation. -/
structure POState where
  items : List PurchaseOrderItemRow
  receptions : List StockReceptionRow
  nextId : Nat
  deriving DecidableEq, Repr

/-- The endpoint-level update: serializer validation strips the
read-only id from every submitted line, then the update runs inside the
request's transaction, so any database error rolls the whole operation
back (modelled by returning the error and no state). -/
def updateOrderItems (st : POState) (submitted : List SubmittedItem) :
    Except POUpdateError POState :=
  match poItemsUpdate st.items st.receptions st.nextId (validatedItems submitted) with
  | .error e => .error e
  | .ok (its, n') => .ok { st with items := its, nextId := n' }

/- ===== PO number generation (PurchaseOrder.save, src/purchasing/models.py lines 52-88) ===== -/

/-- Decimal digit character, `48 + d` being its code point. -/
def digitChar (d : Nat) : Char := Char.ofNat (48 + d)

/-- Decimal representation, most significant digit first; structural on
an explicit fuel so that it evaluates by `decide`. -/
def natDigitsFuel : Nat → Nat → List Char
  | 0, _ => []
  | fuel + 1, n =>
    if n < 10 then [digitChar n]
    else natDigitsFuel fuel (n / 10) ++ [digitChar (n % 10)]

def natDigits (n : Nat) : List Char := natDigitsFuel (n + 1) n

/-- Python format `f'{n:04d}'`: the decimal digits left-padded with '0'
to at least four characters. -/
def pad4 (n : Nat) : List Char :=
  let ds := natDigits n
  List.replicate (4 - ds.length) '0' ++ ds

def charDigit? (c : Char) : Option Nat :=
  if '0' ≤ c ∧ c ≤ '9' then some (c.toNat - 48) else none

def parseNatAux : List Char → Nat → Option Nat
  | [], acc => some acc
  | c :: cs, acc =>
    match charDigit? c with
    | some d => parseNatAux cs (acc * 10 + d)
    | none => none

/-- Python `int(s)` on the strings at hand: digits only, empty string a
ValueError (`none`). -/
def parseNat? : List Char → Option Nat
  | [] => none
  | c :: cs => parseNatAux (c :: cs) 0

/-- Python `s.split('-')`. -/
def splitOnDash : List Char → List (List Char)
  | [] => [[]]
  | c :: cs =>
    match splitOnDash cs with
    | [] => [[]]
    | g :: gs => if c = '-' then [] :: g :: gs else (c :: g) :: gs

/-- Python `s.split('-')[-1]`. -/
def lastGroup (l : List Char) : List Char :=
  (splitOnDash l).getLastD []

/-- Lexicographic comparison by code point: the collation the
`order_by('-po_number')` of the source sorts CharField values with. -/
def listLtB : List Char → List Char → Bool
  | [], [] => false
  | [], _ :: _ => true
  | _ :: _, [] => false
  | a :: as, b :: bs => if a < b then true else if b < a then false else listLtB as bs

/-- `order_by('-po_number').first()`: the maximum string, none on an
empty queryset. -/
def maxPoNumber : List (List Char) → Option (List Char)
  | [] => none
  | x :: xs => some (xs.foldl (fun m y => if listLtB m y then y else m) x)

/-- The literal prefix `#ORD-<year>-`. -/
def poStem (year : Nat) : List Char :=
  ['#', 'O', 'R', 'D', '-'] ++ natDigits year ++ ['-']

/-- The number-generation block of PurchaseOrder.save: filter by the
year's prefix, take the highest po_number, parse the part after the last
'-' (on ValueError restart at 1), increment, zero-pad to 4 digits. -/
def generatePoNumber (year : Nat) (existing : List (List Char)) : List Char :=
  match maxPoNumber (existing.filter (fun p => (poStem year).isPrefixOf p)) with
  | none => poStem year ++ pad4 1
  | some last =>
    match parseNat? (lastGroup last) with
    | some n => poStem year ++ pad4 (n + 1)
    | none => poStem year ++ pad4 1

/-- PurchaseOrder.save's effect on the po_number column: generation runs
only when the instance has no pk and no po_number yet; any later save
leaves the field as it is. Returns the po_number after the save. -/
def poSaveNumber (pk : Option Nat) (po_number : Option (List Char)) (year : Nat)
    (existing : List (List Char)) : Option (List Char) :=
  if pk = none ∧ po_number = none then some (generatePoNumber year existing)
  else po_number

/- =====================================================================
   Theorems
   ===================================================================== -/

/- ===== C2: stock reception and the ledger ===== -/

/-- A successful recordReception only appends to the receptions table:
the inventory and movement tables of the result are the input's. -/
lemma recordReception_ok_parts (st : Store) (r : ReceptionInput) (st' : Store)
    (h : recordReception st r = .ok st') :
    st'.inv = st.inv ∧ st'.movements = st.movements := by
  rw [recordReception] at h
  split at h
  · exact Except.noConfusion h
  · split at h
    · exact Except.noConfusion h
    · cases h
      exact ⟨rfl, rfl⟩

/-- C2. The claim says a successful reception recording persists the
StockReception and then applies a RESTOCK ledger movement of
+quantity_received, increasing quantity_in_stock by that amount. The
code does neither: StockReception.save only validates and inserts the
reception row, and StockReceptionViewSet.perform_create only forwards to
it, so the Inventory table and the StockMovement table are untouched by
every reception, successful or not. -/
theorem reception_applies_no_ledger_movement (st : Store) (r : ReceptionInput) :
    (applyStockOp st (.reception r)).inv = st.inv ∧
    (applyStockOp st (.reception r)).movements = st.movements := by
  show (match recordReception st r with | .ok st' => st' | .error _ => st).inv = st.inv ∧
    (match recordReception st r with | .ok st' => st' | .error _ => st).movements =
      st.movements
  cases h : recordReception st r with
  | ok st' => exact recordReception_ok_parts st r st' h
  | error e => exact ⟨rfl, rfl⟩

/- ===== C6: the reception over-ordering bound ===== -/

/-- C6. With prior_accounted the sum of quantity_received +
decayed_products over all other receptions of the same
PurchaseOrderItem, validation rejects with an over-ordered error
reporting the excess exactly when prior_accounted + quantity_received +
decayed_products exceeds quantity_ordered, and this bound check passes
otherwise. (The hypothesis decayed_products <= quantity_received keeps
the earlier, distinct per-record decay check out of the way, as the
claim's "this bound check" scopes it.) -/
theorem reception_bound_check (table : List StockReceptionRow) (ordered : Nat)
    (self : ReceptionSelf) (h : self.decayed_products ≤ self.quantity_received) :
    (priorAccounted table self + self.quantity_received + self.decayed_products > ordered →
      cleanReception table ordered self =
        .error (.over_ordered
          (priorAccounted table self + self.quantity_received + self.decayed_products
            - ordered))) ∧
    (priorAccounted table self + self.quantity_received + self.decayed_products ≤ ordered →
      cleanReception table ordered self = .ok ()) := by
  have h1 : ¬ (self.decayed_products > self.quantity_received) := by omega
  have h2 : ¬ ((self.quantity_received : Int) - (self.decayed_products : Int) < 0) := by
    omega
  constructor <;> intro hb
  · simp only [cleanReception, if_neg h1, if_neg h2, if_pos hb]
  · simp only [cleanReception, if_neg h1, if_neg h2, if_neg (by omega :
      ¬ priorAccounted table self + self.quantity_received + self.decayed_products > ordered)]

/-- C6 witness: the specification's own worked example. With
quantity_ordered = 100, receptions (60 received, 10 decayed) and
(30, 0) both pass, and a further (1, 0) is rejected as over by 1. -/
theorem reception_bound_check_witness :
    cleanReception [] 100 ⟨none, 1, 60, 10⟩ = .ok () ∧
    cleanReception [⟨1, 1, 60, 10⟩] 100 ⟨none, 1, 30, 0⟩ = .ok () ∧
    cleanReception [⟨1, 1, 60, 10⟩, ⟨2, 1, 30, 0⟩] 100 ⟨none, 1, 1, 0⟩ =
      .error (.over_ordered 1) := by
  refine ⟨?_, ?_, ?_⟩
  · exact (reception_bound_check [] 100 ⟨none, 1, 60, 10⟩ (by decide)).2 (by decide)
  · exact (reception_bound_check [⟨1, 1, 60, 10⟩] 100 ⟨none, 1, 30, 0⟩ (by decide)).2
      (by decide)
  · exact (reception_bound_check [⟨1, 1, 60, 10⟩, ⟨2, 1, 30, 0⟩] 100 ⟨none, 1, 1, 0⟩
      (by decide)).1 (by decide)

/- ===== C7: the all-zero reception ===== -/

/-- C7 counterexample. The claim says a reception with
quantity_received = 0 and decayed_products = 0 is rejected by validation
and never persisted. StockReception.clean has no such check (it only
rejects missing fields, decayed > received, and over-ordered totals), so
the all-zero record passes full_clean and save inserts it. -/
theorem reception_all_zero_persisted :
    recordReception
        { inv := [], movements := [], sales := [], saleItems := [], orders := [],
          poItems := [{ id := 1, product := 1, quantity_ordered := 10, unit_cost := 50 }],
          receptions := [], nextId := 5 }
        { purchase_order_item := 1, quantity_received := 0, decayed_products := 0 } =
      .ok { inv := [], movements := [], sales := [], saleItems := [], orders := [],
            poItems := [{ id := 1, product := 1, quantity_ordered := 10, unit_cost := 50 }],
            receptions := [{ pk := 5, purchase_order_item := 1, quantity_received := 0,
                             decayed_products := 0 }],
            nextId := 6 } := rfl

/-- C7 amended: validation does not reject an all-zero reception.
Whenever the other receptions of the item do not already exceed the
ordered quantity, a record with quantity_received = 0 and
decayed_products = 0 passes StockReception.clean. -/
theorem reception_all_zero_accepted (table : List StockReceptionRow) (ordered : Nat)
    (self : ReceptionSelf) (h0 : self.quantity_received = 0)
    (h1 : self.decayed_products = 0)
    (h2 : priorAccounted table self ≤ ordered) :
    cleanReception table ordered self = .ok () := by
  simp only [cleanReception, h0, h1]
  rw [if_neg (by omega), if_neg (by simp), if_neg (by omega)]

/-- C7 amended witness. -/
theorem reception_all_zero_accepted_witness :
    cleanReception [⟨1, 1, 4, 0⟩] 10 ⟨none, 1, 0, 0⟩ = .ok () :=
  reception_all_zero_accepted [⟨1, 1, 4, 0⟩] 10 ⟨none, 1, 0, 0⟩ rfl rfl (by decide)

/- ===== C4: webhook idempotency on an already-successful payment ===== -/

/-- C4. A webhook delivery whose Payment is already SUCCESS returns the
acknowledging 200 and changes nothing: payments (status,
transaction_id), orders and the fulfillment log are exactly the input
state, and delivering the identical payload once more again changes
nothing. -/
theorem webhook_success_replay_noop (s : PayState) (cn tid : Nat) (amount : Int)
    (d : LocalDetailsRow) (p : PaymentRow)
    (hcn : cn ≠ 0) (htid : tid ≠ 0) (hamt : amount ≠ 0)
    (hd : s.details.find? (fun x => x.control_number == cn) = some d)
    (hp : s.payments.find? (fun x => x.id == d.payment) = some p)
    (hs : p.status = .SUCCESS) :
    handleWebhook cn tid amount s = (.already_processed_200, s) ∧
    handleWebhook cn tid amount (handleWebhook cn tid amount s).2 =
      (.already_processed_200, s) := by
  have h1 : handleWebhook cn tid amount s = (.already_processed_200, s) := by
    rw [handleWebhook, if_neg (by simp [hcn, htid, hamt])]
    simp only [hd]
    simp only [hp]
    rw [if_pos hs]
  refine ⟨h1, ?_⟩
  rw [h1]
  exact h1

/-- A concrete settled payment state for the C4 witness. -/
def settledPayState : PayState :=
  { payments := [{ id := 1, order := 9, amount_due := 5000, status := .SUCCESS,
                   transaction_id := some 123 }],
    details := [{ payment := 1, control_number := 77, expiry_time := 100 }],
    orders := [{ id := 9, order_status := .PAID }],
    fulfillments := [(9, 123)], now := 50 }

/-- C4 witness. -/
theorem webhook_success_replay_noop_witness :
    handleWebhook 77 123 5000 settledPayState = (.already_processed_200, settledPayState) :=
  (webhook_success_replay_noop settledPayState 77 123 5000
    { payment := 1, control_number := 77, expiry_time := 100 }
    { id := 1, order := 9, amount_due := 5000, status := .SUCCESS,
      transaction_id := some 123 }
    (by decide) (by decide) (by decide) rfl rfl rfl).1

/- ===== C5: webhook amount mismatch ===== -/

/-- C5. A webhook for a not-yet-successful, unexpired control number
whose amount differs from amount_due is acknowledged with a 200 while
nothing transitions: the state is returned unchanged, so the payment row
keeps its status (in particular a WAITING_PAYMENT payment stays
WAITING_PAYMENT and is never set to SUCCESS), its transaction_id stays
unset, and no fulfillment is invoked. -/
theorem webhook_amount_mismatch_ack (s : PayState) (cn tid : Nat) (amount : Int)
    (d : LocalDetailsRow) (p : PaymentRow)
    (hcn : cn ≠ 0) (htid : tid ≠ 0) (hamt : amount ≠ 0)
    (hd : s.details.find? (fun x => x.control_number == cn) = some d)
    (hp : s.payments.find? (fun x => x.id == d.payment) = some p)
    (hs : p.status ≠ .SUCCESS)
    (hexp : ¬ d.expiry_time < s.now)
    (hne : amount ≠ p.amount_due) :
    handleWebhook cn tid amount s = (.mismatch_ack_200, s) ∧
    (handleWebhook cn tid amount s).2.payments.find? (fun x => x.id == d.payment) =
      some p ∧
    (handleWebhook cn tid amount s).2.fulfillments = s.fulfillments := by
  have h1 : handleWebhook cn tid amount s = (.mismatch_ack_200, s) := by
    rw [handleWebhook, if_neg (by simp [hcn, htid, hamt])]
    simp only [hd]
    simp only [hp]
    rw [if_neg hs, if_neg hexp, if_pos hne]
  exact ⟨h1, by rw [h1]; exact hp, by rw [h1]⟩

/-- A concrete waiting payment state for the C5 witness. -/
def waitingPayState : PayState :=
  { payments := [{ id := 1, order := 9, amount_due := 5000,
                   status := .WAITING_PAYMENT, transaction_id := none }],
    details := [{ payment := 1, control_number := 77, expiry_time := 100 }],
    orders := [{ id := 9, order_status := .PENDING }],
    fulfillments := [], now := 50 }

/-- C5 witness: the delivered 4000 differs from the 5000 due; the call
acknowledges and the WAITING_PAYMENT row is untouched. -/
theorem webhook_amount_mismatch_ack_witness :
    handleWebhook 77 123 4000 waitingPayState = (.mismatch_ack_200, waitingPayState) :=
  (webhook_amount_mismatch_ack waitingPayState 77 123 4000
    { payment := 1, control_number := 77, expiry_time := 100 }
    { id := 1, order := 9, amount_due := 5000, status := .WAITING_PAYMENT,
      transaction_id := none }
    (by decide) (by decide) (by decide) rfl rfl (by decide) (by decide) (by decide)).1

/- ===== C9: license assignment with an exhausted key pool ===== -/

/-- C9. The claim (and the source's own dead `except
SoftwareLicense.DoesNotExist` branch) expect a no-license-available 404
when every license of the product is assigned. The code instead crashes:
`queryset.first()` returns None without raising DoesNotExist, so
`license.is_assigned = True` raises AttributeError and the handler
answers a 500 while the transaction rolls back. The state is unchanged
(no SoftwareLicense modified, no CustomerDigitalAccess created) — that
half of the claim holds — but the advertised 404 is never produced. -/
theorem license_pool_exhausted_crashes (s : LicState) (oid pid : Nat)
    (ho : oid ∈ s.orders)
    (hall : ∀ l ∈ s.licenses, l.product = pid → l.is_assigned = true) :
    internalKeyAssignment s oid pid = (.server_error_500, s) ∧
    (internalKeyAssignment s oid pid).1 ≠ .no_license_404 := by
  have hnone : s.licenses.find? (fun l => l.product == pid && !l.is_assigned) = none := by
    rw [List.find?_eq_none]
    intro l hl
    by_cases hpe : l.product = pid
    · simp [hpe, hall l hl hpe]
    · simp [hpe]
  have h1 : internalKeyAssignment s oid pid = (.server_error_500, s) := by
    rw [internalKeyAssignment, if_pos ho, hnone]
  exact ⟨h1, by rw [h1]; exact fun hcontra => LicResp.noConfusion hcontra⟩

/-- A single fully-assigned license pool for the C9 witness. -/
def exhaustedLicState : LicState :=
  { licenses := [{ id := 1, product := 7, license_key := 111, is_assigned := true,
                   assigned_to_order := some 3 }],
    accesses := [], orders := [9] }

/-- C9 witness. -/
theorem license_pool_exhausted_crashes_witness :
    internalKeyAssignment exhaustedLicState 9 7 = (.server_error_500, exhaustedLicState) :=
  (license_pool_exhausted_crashes exhaustedLicState 9 7 (by decide)
    (by intro l hl hp; simp only [exhaustedLicState, List.mem_singleton] at hl;
        rw [hl])).1

/- ===== C3: sale transactions abort entirely on insufficient stock ===== -/

/-- When every line has an inventory row and some line requests more
than its row holds, the validation loop stops with the
insufficient-stock error of such a line, carrying its SKU, the requested
quantity and the available stock. -/
lemma saleValidateGo_insufficient (inv : List InventoryRow) :
    ∀ (lines : List SaleLine) (acc : Int),
      (∀ l ∈ lines, lookupInv inv l.product ≠ none) →
      (∃ l ∈ lines, stockOf inv l.product < (l.quantity : Int)) →
      ∃ l ∈ lines,
        saleValidateGo inv lines acc =
          .error (.insufficient_stock l.product l.quantity (stockOf inv l.product)) ∧
        stockOf inv l.product < (l.quantity : Int)
  | [], acc, _, hbad => absurd hbad (by simp)
  | l :: ls, acc, hrows, hbad => by
    cases hlook : lookupInv inv l.product with
    | none => exact absurd hlook (hrows l (by simp))
    | some row =>
      have hstock : stockOf inv l.product = row.quantity_in_stock := by
        simp [stockOf, hlook]
      by_cases hgt : (l.quantity : Int) > row.quantity_in_stock
      · refine ⟨l, by simp, ?_, by rw [hstock]; exact hgt⟩
        rw [saleValidateGo]
        simp only [hlook]
        rw [if_pos hgt, hstock]
      · have hbad' : ∃ x ∈ ls, stockOf inv x.product < (x.quantity : Int) := by
          rcases hbad with ⟨x, hx, hxs⟩
          rcases List.mem_cons.mp hx with hx1 | hx2
          · subst hx1
            rw [hstock] at hxs
            omega
          · exact ⟨x, hx2, hxs⟩
        have hrows' : ∀ x ∈ ls, lookupInv inv x.product ≠ none := fun x hx =>
          hrows x (List.mem_cons_of_mem l hx)
        rcases saleValidateGo_insufficient inv ls (acc + l.quantity * l.unit_price)
            hrows' hbad' with ⟨x, hx, hx1, hx2⟩
        refine ⟨x, List.mem_cons_of_mem l hx, ?_, hx2⟩
        rw [saleValidateGo]
        simp only [hlook]
        rw [if_neg hgt]
        exact hx1

/-- C3. A sale-transaction request in which some line's quantity exceeds
that SKU's quantity_in_stock fails with the insufficient-stock error
naming the SKU, the requested quantity and the available quantity, and
the returned store is exactly the input store: no Sale, SaleItem or
StockMovement row is created and no Inventory row changes for any SKU of
the request. -/
theorem sale_insufficient_stock_aborts (st : Store) (lines : List SaleLine)
    (hq : ∀ l ∈ lines, 1 ≤ l.quantity)
    (hrows : ∀ l ∈ lines, lookupInv st.inv l.product ≠ none)
    (hbad : ∃ l ∈ lines, stockOf st.inv l.product < (l.quantity : Int)) :
    ∃ l ∈ lines,
      runSale st lines =
        (st, .error (.insufficient_stock l.product l.quantity
          (stockOf st.inv l.product))) ∧
      stockOf st.inv l.product < (l.quantity : Int) := by
  have hne : lines ≠ [] := by
    rcases hbad with ⟨l, hl, _⟩
    exact List.ne_nil_of_mem hl
  have hany : lines.any (fun l => l.quantity < 1) = false := by
    rw [List.any_eq_false]
    intro l hl
    simp only [decide_eq_true_eq]
    exact Nat.not_lt.mpr (hq l hl)
  rcases saleValidateGo_insufficient st.inv lines 0 hrows hbad with ⟨l, hl, h1, h2⟩
  refine ⟨l, hl, ?_, h2⟩
  have hv : saleValidate st.inv lines =
      .error (.insufficient_stock l.product l.quantity (stockOf st.inv l.product)) := by
    rw [saleValidate, if_neg (by rw [hany]; decide),
      if_neg (by simp [List.isEmpty_iff, hne])]
    exact h1
  rw [runSale]
  simp only [hv]

/-- C3 witness: requesting 9 units of SKU 1 with 5 in stock. -/
theorem sale_insufficient_stock_aborts_witness :
    ∃ l ∈ [({ product := 1, quantity := 9, unit_price := 100 } : SaleLine)],
      runSale
          { inv := [{ product := 1, quantity_in_stock := 5 }], movements := [],
            sales := [], saleItems := [], orders := [], poItems := [],
            receptions := [], nextId := 10 }
          [{ product := 1, quantity := 9, unit_price := 100 }] =
        ({ inv := [{ product := 1, quantity_in_stock := 5 }], movements := [],
           sales := [], saleItems := [], orders := [], poItems := [],
           receptions := [], nextId := 10 },
         .error (.insufficient_stock l.product l.quantity
           (stockOf [{ product := 1, quantity_in_stock := 5 }] l.product))) ∧
      stockOf [{ product := 1, quantity_in_stock := 5 }] l.product <
        (l.quantity : Int) :=
  sale_insufficient_stock_aborts
    { inv := [{ product := 1, quantity_in_stock := 5 }], movements := [],
      sales := [], saleItems := [], orders := [], poItems := [],
      receptions := [], nextId := 10 }
    [{ product := 1, quantity := 9, unit_price := 100 }]
    (by decide) (by decide)
    ⟨{ product := 1, quantity := 9, unit_price := 100 }, by simp, by decide⟩

/- ===== C1: the ledger-consistency invariant ===== -/

/-- Appending one movement adds its quantity_change to the sum of its
SKU and nothing to any other SKU. -/
lemma movementSum_append (movs : List StockMovement) (m : StockMovement) (p : Nat) :
    movementSum (movs ++ [m]) p =
      movementSum movs p + (if m.product = p then m.quantity_change else 0) := by
  rw [movementSum, movementSum, List.filter_append, List.map_append, List.sum_append]
  by_cases h : m.product = p
  · simp [h]
  · simp [h]

/-- The ledger-mediated mutation shape: appending a movement for SKU `p`
with change `d` while adding `d` to the inventory row(s) of `p`
preserves alignment. -/
lemma ledgerAligned_move (inv : List InventoryRow) (movs : List StockMovement)
    (p : Nat) (t : MovementType) (d c : Int) (ref : Nat)
    (h : ledgerAligned inv movs) :
    ledgerAligned (addQty inv p d)
      (movs ++ [{ product := p, movement_type := t, quantity_change := d,
                  unit_cost := c, reference_id := ref }]) := by
  intro r hr
  simp only [addQty] at hr
  rcases List.mem_map.mp hr with ⟨r0, hr0, rfl⟩
  by_cases hp : r0.product = p
  · simp only [hp, beq_self_eq_true, if_true]
    rw [movementSum_append, if_pos rfl]
    show r0.quantity_in_stock + d = movementSum movs p + d
    have := h r0 hr0
    rw [hp] at this
    omega
  · simp only [beq_iff_eq, hp, if_false]
    rw [movementSum_append, if_neg (fun hc => hp hc.symm)]
    have := h r0 hr0
    omega

/-- One `_inventory_updates` entry of the sale-create loop preserves the
invariant: it appends the -quantity SALE movement and decrements the
same SKU's row by the same amount. -/
lemma ledgerOk_applyLineSale (lines : List SaleLine) (sid : Nat) (st : Store)
    (pq : Nat × Nat) (h : ledgerOk st) : ledgerOk (applyLineSale lines sid st pq) :=
  ledgerAligned_move st.inv st.movements pq.1 .SALE (-(pq.2 : Int)) 0 sid h

lemma ledgerOk_foldl_lineSale (lines : List SaleLine) (sid : Nat) :
    ∀ (entries : List (Nat × Nat)) (st : Store), ledgerOk st →
      ledgerOk (entries.foldl (applyLineSale lines sid) st)
  | [], _, h => h
  | e :: es, st, h =>
    ledgerOk_foldl_lineSale lines sid es (applyLineSale lines sid st e)
      (ledgerOk_applyLineSale lines sid st e h)

/-- A sale transaction, committed or rolled back, preserves the
invariant. -/
lemma ledgerOk_runSale (st : Store) (lines : List SaleLine) (h : ledgerOk st) :
    ledgerOk (runSale st lines).1 := by
  rw [runSale]
  cases hval : saleValidate st.inv lines with
  | error e => exact h
  | ok total =>
    simp only []
    exact ledgerOk_foldl_lineSale lines st.nextId (inventoryUpdates lines) _ h

/-- A manual adjustment, committed or rejected, preserves the
invariant. -/
lemma ledgerOk_adjust (st : Store) (sku : Nat) (dq cost : Int) (h : ledgerOk st) :
    ledgerOk (applyStockOp st (.adjust sku dq cost)) := by
  show ledgerOk (match stockAdjustment st sku dq cost with
    | .ok st' => st'
    | .error _ => st)
  cases ha : stockAdjustment st sku dq cost with
  | error e => exact h
  | ok st' =>
    rw [stockAdjustment] at ha
    split at ha
    · exact Except.noConfusion ha
    · split at ha
      · exact Except.noConfusion ha
      · split at ha
        · exact Except.noConfusion ha
        · cases ha
          exact ledgerAligned_move st.inv st.movements sku .ADJUST dq cost 0 h

/-- C1 counterexample. The claim also ranges over order creation with
physical items, but SalesOrderSerializer.create decrements
quantity_in_stock directly without writing any StockMovement: after an
adjustment of +5 and an order of 2 units, the row holds 3 while the
movement sum is still 5. -/
theorem ledger_consistency_counterexample :
    ¬ ledgerOk (applyStockOps
        { inv := [{ product := 1, quantity_in_stock := 0 }], movements := [],
          sales := [], saleItems := [], orders := [], poItems := [],
          receptions := [], nextId := 10 }
        [.adjust 1 5 0,
         .orderCreate [{ product := 1, quantity := 2, unit_price := 100 }]]) := by
  intro h
  have h2 := h { product := 1, quantity_in_stock := 3 } (by decide)
  exact absurd h2 (by decide)

/-- C1 amended. For every finite sequence of committed operations drawn
from sale transactions, stock receptions and manual adjustments — the
ledger-mediated operations — every Inventory row's quantity_in_stock
equals the sum of quantity_change over its SKU's StockMovement records
after each operation. Order creation with physical items is excluded:
it breaks the equality (see the counterexample). -/
theorem ledger_consistency_mediated_ops (ops : List StockOp) :
    ∀ st : Store, (∀ op ∈ ops, op.ledgerMediated) → ledgerOk st →
      ledgerOk (applyStockOps st ops)
  | st, _, h => by
    induction ops generalizing st with
    | nil => exact h
    | cons op ops' ih =>
      rename_i hops
      have h1 : ledgerOk (applyStockOp st op) := by
        cases op with
        | sale lines => exact ledgerOk_runSale st lines h
        | adjust sku dq cost => exact ledgerOk_adjust st sku dq cost h
        | reception r =>
          show ledgerOk (match recordReception st r with
            | .ok st' => st'
            | .error _ => st)
          cases hr : recordReception st r with
          | error e => exact h
          | ok st' =>
            rcases recordReception_ok_parts st r st' hr with ⟨hi, hm⟩
            rw [ledgerOk, hi, hm]
            exact h
        | orderCreate lines =>
          exact (hops (.orderCreate lines) (List.mem_cons_self _ _)).elim
      exact ih (applyStockOp st op) (fun o ho => hops o (List.mem_cons_of_mem _ ho)) h1

/-- C1 amended witness: an adjustment of +5, a sale of 2 and a reception
on a store that starts aligned. -/
theorem ledger_consistency_mediated_ops_witness :
    ledgerOk (applyStockOps
        { inv := [{ product := 1, quantity_in_stock := 0 }], movements := [],
          sales := [], saleItems := [], orders := [],
          poItems := [{ id := 1, product := 1, quantity_ordered := 100, unit_cost := 50 }],
          receptions := [], nextId := 10 }
        [.adjust 1 5 0,
         .sale [{ product := 1, quantity := 2, unit_price := 100 }],
         .reception { purchase_order_item := 1, quantity_received := 60,
                      decayed_products := 10 }]) := by
  apply ledger_consistency_mediated_ops
  · intro op hop
    fin_cases hop <;> trivial
  · intro r hr
    simp only [List.mem_singleton] at hr
    subst hr
    rfl

/- ===== C10: PO-number generation ===== -/

lemma parseNatAux_append (xs ys : List Char) (a : Nat) :
    parseNatAux (xs ++ ys) a = (parseNatAux xs a).bind (fun b => parseNatAux ys b) := by
  induction xs generalizing a with
  | nil => rfl
  | cons c cs ih =>
    rw [List.cons_append]
    simp only [parseNatAux]
    cases hc : charDigit? c with
    | some d => exact ih (a * 10 + d)
    | none => rfl

lemma charDigit?_digitChar (d : Nat) (h : d < 10) : charDigit? (digitChar d) = some d := by
  interval_cases d <;> rfl

lemma parseNatAux_natDigitsFuel :
    ∀ (fuel n a : Nat), n < 10 ^ fuel →
      parseNatAux (natDigitsFuel fuel n) a =
        some (a * 10 ^ (natDigitsFuel fuel n).length + n)
  | 0, n, a, h => by
    have hn : n = 0 := by simpa using h
    subst hn
    simp [natDigitsFuel, parseNatAux]
  | fuel + 1, n, a, h => by
    rw [natDigitsFuel]
    by_cases h10 : n < 10
    · rw [if_pos h10]
      simp only [parseNatAux, charDigit?_digitChar n h10]
      norm_num
    · rw [if_neg h10]
      have hdiv : n / 10 < 10 ^ fuel := by
        rw [Nat.div_lt_iff_lt_mul (by norm_num : 0 < 10)]
        calc n < 10 ^ (fuel + 1) := h
          _ = 10 ^ fuel * 10 := by rw [pow_succ]
      rw [parseNatAux_append, parseNatAux_natDigitsFuel fuel (n / 10) a hdiv]
      simp only [Option.some_bind, parseNatAux,
        charDigit?_digitChar (n % 10) (Nat.mod_lt n (by norm_num))]
      rw [List.length_append]
      simp only [List.length_singleton]
      congr 1
      have hmod := Nat.div_add_mod n 10
      have hr : (a * 10 ^ (natDigitsFuel fuel (n / 10)).length + n / 10) * 10 + n % 10 =
          a * (10 ^ (natDigitsFuel fuel (n / 10)).length * 10) +
            (10 * (n / 10) + n % 10) := by
        ring
      rw [hr, hmod, ← pow_succ]

lemma parseNatAux_replicate_zero :
    ∀ (k a : Nat), parseNatAux (List.replicate k '0') a = some (a * 10 ^ k)
  | 0, a => by simp [parseNatAux]
  | k + 1, a => by
    rw [List.replicate_succ]
    show parseNatAux (List.replicate k '0') (a * 10 + 0) = some (a * 10 ^ (k + 1))
    rw [parseNatAux_replicate_zero k (a * 10 + 0)]
    congr 1
    ring

lemma natDigitsFuel_ne_nil (fuel n : Nat) : natDigitsFuel (fuel + 1) n ≠ [] := by
  rw [natDigitsFuel]
  by_cases h : n < 10
  · rw [if_pos h]
    exact List.cons_ne_nil _ _
  · rw [if_neg h]
    simp

lemma parseNat?_eq_aux (cs : List Char) (h : cs ≠ []) : parseNat? cs = parseNatAux cs 0 := by
  cases cs with
  | nil => exact absurd rfl h
  | cons c cs' => rfl

/-- Printing a number with f-string zero padding and reading it back with
int() round-trips. -/
lemma parseNat?_pad4 (n : Nat) : parseNat? (pad4 n) = some n := by
  have hlt : n < 10 ^ (n + 1) := by
    have h1 : n < 10 ^ n := Nat.lt_pow_self (by norm_num) n
    exact lt_of_lt_of_le h1 (Nat.pow_le_pow_right (by norm_num) (Nat.le_succ n))
  have hne : pad4 n ≠ [] := by
    rw [pad4]
    intro hcon
    rcases List.append_eq_nil.mp hcon with ⟨_, h2⟩
    exact natDigitsFuel_ne_nil n n h2
  rw [parseNat?_eq_aux _ hne, pad4, parseNatAux_append, parseNatAux_replicate_zero]
  simp only [Option.some_bind, Nat.zero_mul]
  rw [show natDigits n = natDigitsFuel (n + 1) n from rfl,
    parseNatAux_natDigitsFuel (n + 1) n 0 hlt]
  simp

lemma digitChar_ne_dash (d : Nat) (h : d < 10) : digitChar d ≠ '-' := by
  interval_cases d <;> decide

lemma dash_not_mem_natDigitsFuel : ∀ (fuel n : Nat), '-' ∉ natDigitsFuel fuel n := by
  intro fuel
  induction fuel with
  | zero => intro n h; exact absurd h (List.not_mem_nil _)
  | succ fuel ih =>
    intro n
    rw [natDigitsFuel]
    by_cases h : n < 10
    · rw [if_pos h]
      intro hmem
      exact digitChar_ne_dash n h (List.mem_singleton.mp hmem).symm
    · rw [if_neg h]
      intro hmem
      rcases List.mem_append.mp hmem with h1 | h2
      · exact ih (n / 10) h1
      · exact digitChar_ne_dash (n % 10) (Nat.mod_lt n (by norm_num))
          (List.mem_singleton.mp h2).symm

lemma dash_not_mem_pad4 (n : Nat) : '-' ∉ pad4 n := by
  rw [pad4]
  intro h
  rcases List.mem_append.mp h with h1 | h2
  · exact absurd (List.eq_of_mem_replicate h1) (by decide)
  · exact dash_not_mem_natDigitsFuel (n + 1) n h2

lemma splitOnDash_ne_nil (l : List Char) : splitOnDash l ≠ [] := by
  cases l with
  | nil => simp [splitOnDash]
  | cons c cs =>
    rw [splitOnDash]
    split
    · exact List.cons_ne_nil _ _
    · split
      · exact List.cons_ne_nil _ _
      · exact List.cons_ne_nil _ _

lemma splitOnDash_no_dash : ∀ (l : List Char), '-' ∉ l → splitOnDash l = [l]
  | [], _ => rfl
  | c :: cs, h => by
    have hc : c ≠ '-' := fun hcc => h (hcc ▸ List.mem_cons_self c cs)
    have hcs : '-' ∉ cs := fun hm => h (List.mem_cons_of_mem c hm)
    rw [splitOnDash, splitOnDash_no_dash cs hcs]
    simp [hc]

lemma splitOnDash_length_two : ∀ (l : List Char), '-' ∈ l → 2 ≤ (splitOnDash l).length
  | [], h => absurd h (List.not_mem_nil _)
  | c :: cs, h => by
    rcases hsp : splitOnDash cs with _ | ⟨g, gs⟩
    · exact absurd hsp (splitOnDash_ne_nil cs)
    · rw [splitOnDash, hsp]
      show 2 ≤ (if c = '-' then [] :: g :: gs else (c :: g) :: gs).length
      by_cases hc : c = '-'
      · rw [if_pos hc]
        simp
      · rw [if_neg hc]
        have hmem : '-' ∈ cs := by
          rcases List.mem_cons.mp h with h1 | h2
          · exact absurd h1.symm hc
          · exact h2
        have h3 := splitOnDash_length_two cs hmem
        rw [hsp] at h3
        simpa using h3

lemma lastGroup_cons_of_dash_mem (c : Char) (cs : List Char) (h : '-' ∈ cs) :
    lastGroup (c :: cs) = lastGroup cs := by
  rcases hsp : splitOnDash cs with _ | ⟨g, gs⟩
  · exact absurd hsp (splitOnDash_ne_nil cs)
  · have hgs : gs ≠ [] := by
      have h2 := splitOnDash_length_two cs h
      rw [hsp] at h2
      intro hcon
      rw [hcon] at h2
      simp at h2
    rw [lastGroup, lastGroup, splitOnDash, hsp]
    show (if c = '-' then [] :: g :: gs else (c :: g) :: gs).getLastD [] =
      (g :: gs).getLastD []
    by_cases hc : c = '-'
    · rw [if_pos hc, List.getLastD_cons]
    · rw [if_neg hc, List.getLastD_cons, List.getLastD_cons]
      rcases gs with _ | ⟨y, ys⟩
      · exact absurd rfl hgs
      · rw [List.getLastD_cons, List.getLastD_cons]

lemma lastGroup_append_dash : ∀ (xs ys : List Char), lastGroup (xs ++ '-' :: ys) = lastGroup ys
  | [], ys => by
    rcases hsp : splitOnDash ys with _ | ⟨g, gs⟩
    · exact absurd hsp (splitOnDash_ne_nil ys)
    · rw [List.nil_append, lastGroup, lastGroup, splitOnDash, hsp]
      show (if '-' = '-' then [] :: g :: gs else ('-' :: g) :: gs).getLastD [] =
        (g :: gs).getLastD []
      rw [if_pos rfl, List.getLastD_cons]
  | x :: xs, ys => by
    rw [List.cons_append, lastGroup_cons_of_dash_mem x _ (by simp)]
    exact lastGroup_append_dash xs ys

/-- The part of `#ORD-<year>-<seq>` after the last '-' is the padded
sequence. -/
lemma lastGroup_poNumber (year s : Nat) :
    lastGroup (poStem year ++ pad4 s) = pad4 s := by
  have h1 : poStem year ++ pad4 s =
      (['#', 'O', 'R', 'D', '-'] ++ natDigits year) ++ '-' :: pad4 s := by
    simp [poStem, List.append_assoc]
  rw [h1, lastGroup_append_dash, lastGroup,
    splitOnDash_no_dash _ (dash_not_mem_pad4 s)]
  rfl

/-- C10. On the first save of a PurchaseOrder with no po_number yet, the
assigned number is `#ORD-<year>-` followed by the trailing sequence of
the highest existing po_number with that year's prefix incremented by
one and zero-padded to 4 digits, or 0001 when no such order exists; and
every later save (the row has a pk) leaves po_number unchanged. -/
theorem po_number_on_save (year : Nat) (existing : List (List Char)) (s : Nat) :
    (maxPoNumber (existing.filter (fun q => (poStem year).isPrefixOf q)) =
        some (poStem year ++ pad4 s) →
      poSaveNumber none none year existing = some (poStem year ++ pad4 (s + 1))) ∧
    (existing.filter (fun q => (poStem year).isPrefixOf q) = [] →
      poSaveNumber none none year existing = some (poStem year ++ pad4 1)) ∧
    (∀ (k : Nat) (v : Option (List Char)),
      poSaveNumber (some k) v year existing = v) := by
  refine ⟨?_, ?_, ?_⟩
  · intro hmax
    rw [poSaveNumber, if_pos ⟨rfl, rfl⟩, generatePoNumber]
    simp only [hmax, lastGroup_poNumber, parseNat?_pad4]
  · intro hemp
    rw [poSaveNumber, if_pos ⟨rfl, rfl⟩, generatePoNumber]
    simp only [hemp]
    rfl
  · intro k v
    rw [poSaveNumber, if_neg (by simp)]

/-- C10 witness: with `#ORD-2025-0003` and `#ORD-2025-0012` stored, the
first save assigns `#ORD-2025-0013`; with nothing stored for 2026 it
assigns `#ORD-2026-0001`; a later save (pk = 5) keeps the stored
number. -/
theorem po_number_on_save_witness :
    poSaveNumber none none 2025 [poStem 2025 ++ pad4 3, poStem 2025 ++ pad4 12] =
      some (poStem 2025 ++ pad4 13) ∧
    poSaveNumber none none 2026 [] = some (poStem 2026 ++ pad4 1) ∧
    poSaveNumber (some 5) (some (poStem 2025 ++ pad4 3)) 2025 [] =
      some (poStem 2025 ++ pad4 3) :=
  ⟨(po_number_on_save 2025 [poStem 2025 ++ pad4 3, poStem 2025 ++ pad4 12] 12).1 rfl,
   (po_number_on_save 2026 [] 0).2.1 rfl,
   (po_number_on_save 2025 [] 0).2.2 5 (some (poStem 2025 ++ pad4 3))⟩

/- ===== C8: purchase-order item diff update ===== -/

/-- Serializer validation never lets an identifier through: every line
of a validated payload has no id. -/
lemma validatedItems_sid_none (xs : List SubmittedItem) :
    ∀ s ∈ validatedItems xs, s.sid = none := by
  intro s hs
  rcases List.mem_map.mp hs with ⟨x, _, rfl⟩
  rfl

/-- The concrete order state of the C8 failing inputs: two stored lines
(ids 1 and 2), a reception attached to line 1, autoincrement at 50. -/
def poStateC8 : POState :=
  { items := [{ id := 1, product := 100, quantity_ordered := 5, unit_cost := 10 },
              { id := 2, product := 200, quantity_ordered := 3, unit_cost := 20 }],
    receptions := [{ pk := 7, purchase_order_item := 1, quantity_received := 2,
                     decayed_products := 0 }],
    nextId := 50 }

/-- The claim's own scenario as a payload: line 1 resubmitted under its
id with a new quantity, plus one fresh line. -/
def submittedC8 : List SubmittedItem :=
  [{ sid := some 1, product := 100, quantity_ordered := 8, unit_cost := 10 },
   { sid := none, product := 300, quantity_ordered := 2, unit_cost := 30 }]

/-- C8. The claim describes create/update/delete-by-diff semantics and
PurchaseOrderSerializer.update's loop is written for them, but the
program diverges on every leg, evaluated here at concrete inputs:
(1) the serializer strips the submitted ids (PurchaseOrderItemSerializer
read_only_fields), so the update-in-place branch is unreachable;
(2) resubmitting line 1 under its own id is therefore treated as a
creation and dies on unique_together against the still-live row 1
(creation precedes deletion): IntegrityError, nothing committed;
(3) a payload of only new products dies on the PROTECT relation of line
1's reception when the delete step reaches the absent lines:
ProtectedError, so absent lines with receptions are not deleted;
(4) even where the update succeeds (no receptions, disjoint product),
the row submitted under id 1 is deleted and recreated under a fresh
primary key, not updated in place. -/
theorem po_update_dead_diff_branch :
    validatedItems submittedC8 =
      [{ sid := none, product := 100, quantity_ordered := 8, unit_cost := 10 },
       { sid := none, product := 300, quantity_ordered := 2, unit_cost := 30 }] ∧
    updateOrderItems poStateC8 submittedC8 = .error .integrity_unique_product ∧
    updateOrderItems poStateC8
        [{ sid := none, product := 300, quantity_ordered := 2, unit_cost := 30 }] =
      .error .protected_receptions ∧
    updateOrderItems
        { items := [{ id := 1, product := 100, quantity_ordered := 5, unit_cost := 10 }],
          receptions := [], nextId := 50 }
        [{ sid := some 1, product := 200, quantity_ordered := 8, unit_cost := 10 }] =
      .ok { items := [{ id := 50, product := 200, quantity_ordered := 8, unit_cost := 10 }],
            receptions := [], nextId := 51 } :=
  ⟨rfl, rfl, rfl, rfl⟩

end DerBackend
